import Mathlib

/-!
Shallow embedding of `src/check_models.py`.

The script is a single try/except block:

  try:
      url = "https://generativelanguage.googleapis.com/v1beta/models?key="
      resp = urllib.request.urlopen(url).read().decode()
      data = json.loads(resp)
      for m in data.get('models', []):
          print(m['name'])
  except Exception as e:
      print(e)

The network fetch (`urlopen(url).read().decode()`) and `json.loads` are
Python standard-library calls; their outcomes are modelled as inputs to the
embedding: a `NetResult` (the decoded response text, or the message of the
exception raised while fetching/reading/decoding) and a parse function
`String → ParseResult` standing for `json.loads`.  Everything downstream of
those two calls — `dict.get`, `for`-iteration, subscripting `m['name']`,
`print`'s `str()` rendering, and the `except` handler — is embedded
faithfully from Python semantics.  The observable behaviour is the list of
lines written to standard output.
-/

/-- JSON values as produced by Python's `json.loads`: `None`, booleans,
numbers (integers suffice for this development), strings, lists, and dicts.
`obj` keeps the dict's fields as an ordered association list; `json.loads`
produces dicts with distinct keys. -/
inductive Json where
  | null
  | bool (b : Bool)
  | num (n : Int)
  | str (s : String)
  | arr (elems : List Json)
  | obj (fields : List (String × Json))

/-- Python's type name for a parsed-JSON value, as it appears in error
messages such as `'int' object is not iterable`. -/
def pyTypeName : Json → String
  | Json.null => "NoneType"
  | Json.bool _ => "bool"
  | Json.num _ => "int"
  | Json.str _ => "str"
  | Json.arr _ => "list"
  | Json.obj _ => "dict"

/-- Association-list lookup, modelling Python dict key lookup on the
(distinct-keyed) dicts produced by `json.loads`. -/
def dictGet : List (String × Json) → String → Option Json
  | [], _ => none
  | (k, v) :: rest, key => if k = key then some v else dictGet rest key

/-- Message of the `AttributeError` raised by `data.get(...)` when `data`
is not a dict. -/
def attributeErrorMsg (v : Json) : String :=
  "\x27" ++ pyTypeName v ++ "\x27 object has no attribute \x27get\x27"

/-- Message printed for a Python `KeyError` on key `k`: `str(KeyError(k))`
is the repr of the key. -/
def keyErrorMsg (k : String) : String := "\x27" ++ k ++ "\x27"

/-- Message of the `TypeError` raised by `for` over a non-iterable value. -/
def notIterableMsg (v : Json) : String :=
  "\x27" ++ pyTypeName v ++ "\x27 object is not iterable"

/-- Message of the `TypeError` raised by subscripting a string with a string. -/
def strIndexMsg : String := "string indices must be integers, not \x27str\x27"

/-- Message of the `TypeError` raised by subscripting a list with a string. -/
def listIndexMsg : String := "list indices must be integers or slices, not str"

/-- Message of the `TypeError` raised by subscripting a non-subscriptable value. -/
def notSubscriptableMsg (v : Json) : String :=
  "\x27" ++ pyTypeName v ++ "\x27 object is not subscriptable"

/-- `data.get(key, dflt)` (line 6): a dict answers its lookup with the
default for a missing key; any non-dict raises `AttributeError`. -/
def dataGet (data : Json) (key : String) (dflt : Json) : Except String Json :=
  match data with
  | Json.obj fs => Except.ok ((dictGet fs key).getD dflt)
  | v => Except.error (attributeErrorMsg v)

/-- The sequence of elements Python's `for` draws from a value: a list
yields its elements, a string its one-character substrings, a dict its
keys; anything else raises `TypeError`. -/
def pyIter : Json → Except String (List Json)
  | Json.arr xs => Except.ok xs
  | Json.str s => Except.ok (s.toList.map fun c => Json.str ⟨[c]⟩)
  | Json.obj fs => Except.ok (fs.map fun kv => Json.str kv.1)
  | v => Except.error (notIterableMsg v)

/-- `m[key]` (line 7): dict subscripting raises `KeyError` on a missing
key; strings, lists and scalars raise `TypeError`. -/
def subscript (m : Json) (key : String) : Except String Json :=
  match m with
  | Json.obj fs =>
    match dictGet fs key with
    | some v => Except.ok v
    | none => Except.error (keyErrorMsg key)
  | Json.str _ => Except.error strIndexMsg
  | Json.arr _ => Except.error listIndexMsg
  | v => Except.error (notSubscriptableMsg v)

mutual
/-- Python's `repr` of a parsed-JSON value (string escaping inside reprs is
not modelled; no claim exercises it). -/
def pyRepr : Json → String
  | Json.null => "None"
  | Json.bool true => "True"
  | Json.bool false => "False"
  | Json.num n => toString n
  | Json.str s => "\x27" ++ s ++ "\x27"
  | Json.arr xs => "[" ++ String.intercalate ", " (pyReprList xs) ++ "]"
  | Json.obj fs => "\x7b" ++ String.intercalate ", " (pyReprFields fs) ++ "\x7d"

/-- Reprs of a list's elements, in order. -/
def pyReprList : List Json → List String
  | [] => []
  | x :: xs => pyRepr x :: pyReprList xs

/-- Reprs of a dict's `key: value` entries, in order. -/
def pyReprFields : List (String × Json) → List String
  | [] => []
  | (k, v) :: fs => ("\x27" ++ k ++ "\x27: " ++ pyRepr v) :: pyReprFields fs
end

/-- Python's `str` of a parsed-JSON value, the rendering used by `print`:
a string prints as itself, everything else as its repr. -/
def pyStr : Json → String
  | Json.str s => s
  | v => pyRepr v

/-- Outcome of lines 3–4, `urllib.request.urlopen(url).read().decode()`:
either the decoded response text, or the printed description of the
exception raised while connecting, reading, or decoding (connection
failure, DNS failure, non-2xx `HTTPError`, invalid UTF-8). -/
inductive NetResult where
  | success (body : String)
  | failure (msg : String)

/-- Outcome of `json.loads` on the response text: a parsed value, or the
printed description of the raised `JSONDecodeError`. -/
inductive ParseResult where
  | ok (v : Json)
  | err (msg : String)

/-- The loop of lines 6–7 over the already-obtained element sequence:
returns the lines printed inside the loop, paired with the message of the
exception that stopped it, if any.  A failing `m['name']` ends iteration
at that element; no later element is visited. -/
def printModels : List Json → List String × Option String
  | [] => ([], none)
  | m :: rest =>
    match subscript m "name" with
    | Except.error e => ([], some e)
    | Except.ok v =>
      let p := printModels rest
      (pyStr v :: p.1, p.2)

/-- The body of the `try` block (lines 3–7): the lines printed before any
exception, and the message of the exception that escaped the block, if
any. -/
def tryBody (net : NetResult) (parse : String → ParseResult) :
    List String × Option String :=
  match net with
  | NetResult.failure e => ([], some e)
  | NetResult.success body =>
    match parse body with
    | ParseResult.err e => ([], some e)
    | ParseResult.ok data =>
      match dataGet data "models" (Json.arr []) with
      | Except.error e => ([], some e)
      | Except.ok seq =>
        match pyIter seq with
        | Except.error e => ([], some e)
        | Except.ok ms => printModels ms

/-- The whole program: run the `try` body; the `except Exception as e`
handler (lines 8–9) turns any escaped exception into one final printed
line.  The result is the full sequence of lines on standard output. -/
def check_models (net : NetResult) (parse : String → ParseResult) :
    List String :=
  match tryBody net parse with
  | (out, none) => out
  | (out, some e) => out ++ [e]

/-- The request URL of line 3, a single string literal in the source. -/
def url : String := "https://generativelanguage.googleapis.com/v1beta/models?key="

/-- Whether a value is a dict (Python: has `.get`). -/
def isObj : Json → Bool
  | Json.obj _ => true
  | _ => false

/-- Whether a value is iterable in Python (list, string, or dict). -/
def isIterable : Json → Bool
  | Json.arr _ => true
  | Json.str _ => true
  | Json.obj _ => true
  | _ => false

/-- Result of `json.loads` on the response text of the spec's first test
case, the two-model listing. -/
def parseTwoNames : String → ParseResult := fun _ =>
  ParseResult.ok (Json.obj [("models", Json.arr
    [Json.obj [("name", Json.str "a")], Json.obj [("name", Json.str "b")]])])

/-- Result of `json.loads` on the empty-object response. -/
def parseEmptyObj : String → ParseResult := fun _ =>
  ParseResult.ok (Json.obj [])

/-- Result of `json.loads` on the response whose second record lacks a
name field. -/
def parseMissingName : String → ParseResult := fun _ =>
  ParseResult.ok (Json.obj [("models", Json.arr
    [Json.obj [("name", Json.str "a")], Json.obj [("notname", Json.str "b")]])])

/-- Result of `json.loads` on a body that is not valid JSON. -/
def parseInvalidText : String → ParseResult := fun _ =>
  ParseResult.err "Expecting value: line 1 column 1 (char 0)"

/-- An arbitrary parse function, for runs whose fetch already failed. -/
def parseUnused : String → ParseResult := fun _ =>
  ParseResult.err "unused"

/-- Another arbitrary parse function, for the determinism witness. -/
def parseUnusedToo : String → ParseResult := fun _ =>
  ParseResult.err "unused"

/-- Result of `json.loads` on a response whose models field is an empty
object. -/
def parseModelsEmptyDict : String → ParseResult := fun _ =>
  ParseResult.ok (Json.obj [("models", Json.obj [])])

/-- Result of `json.loads` on a response whose top-level value is a list. -/
def parseTopList : String → ParseResult := fun _ =>
  ParseResult.ok (Json.arr [])

/-- Result of `json.loads` on a response whose models value is a list
holding a bare number instead of a record. -/
def parseModelsNumList : String → ParseResult := fun _ =>
  ParseResult.ok (Json.obj [("models", Json.arr [Json.num 5])])

/-- Result of `json.loads` on a response whose records carry non-string
name values. -/
def parseNonStrNames : String → ParseResult := fun _ =>
  ParseResult.ok (Json.obj [("models", Json.arr
    [Json.obj [("name", Json.num 7)], Json.obj [("name", Json.null)]])])

@[simp] lemma pyStr_str (s : String) : pyStr (Json.str s) = s := rfl

/-- If every element answers the `name` subscript with some value, the
loop prints each value's rendering, in order, with no exception. -/
lemma printModels_of_forall {ms vs : List Json}
    (h : List.Forall₂ (fun m v => subscript m "name" = Except.ok v) ms vs) :
    printModels ms = (vs.map pyStr, none) := by
  induction h with
  | nil => rfl
  | cons h1 _ ih => simp [printModels, h1, ih]

/-- If a prefix answers the `name` subscript with string values and the
next element fails it, the loop prints the prefix's names and stops with
that error, never reaching the rest. -/
lemma printModels_append_err {pre : List Json} {names : List String}
    {bad : Json} (post : List Json) {e : String}
    (hpre : List.Forall₂
      (fun m n => subscript m "name" = Except.ok (Json.str n)) pre names)
    (hbad : subscript bad "name" = Except.error e) :
    printModels (pre ++ bad :: post) = (names, some e) := by
  induction hpre with
  | nil => simp [printModels, hbad]
  | cons h1 _ ih => simp [printModels, h1, ih]

/-- A pointwise string-name relation weakens to the value relation over
the names injected back into `Json`. -/
lemma forall2_str_values {ms : List Json} {names : List String}
    (h : List.Forall₂
      (fun m n => subscript m "name" = Except.ok (Json.str n)) ms names) :
    List.Forall₂
      (fun m v => subscript m "name" = Except.ok v) ms (names.map Json.str) := by
  induction h with
  | nil => exact List.Forall₂.nil
  | cons h1 _ ih => exact List.Forall₂.cons h1 ih

/-- Rendering string values injected into `Json` gives back the strings. -/
lemma map_pyStr_map_str (names : List String) :
    (names.map Json.str).map pyStr = names := by
  induction names with
  | nil => rfl
  | cons a as ih => simp only [List.map_cons, pyStr_str, ih]

/-- Claim C1: for every response body that parses to a JSON object whose
models field is a list of records each carrying a string name, the program
prints exactly those names, one per line, in the original order. -/
theorem models_names_printed_in_order (parse : String → ParseResult)
    (body : String) (fields : List (String × Json)) (ms : List Json)
    (names : List String)
    (hp : parse body = ParseResult.ok (Json.obj fields))
    (hm : dictGet fields "models" = some (Json.arr ms))
    (hn : List.Forall₂
      (fun m n => subscript m "name" = Except.ok (Json.str n)) ms names) :
    check_models (NetResult.success body) parse = names := by
  have hpm := printModels_of_forall (forall2_str_values hn)
  have hmap := map_pyStr_map_str names
  simp [check_models, tryBody, hp, dataGet, hm, pyIter, hpm, hmap]

theorem models_names_printed_in_order_witness :
    check_models (NetResult.success "\x7b\"models\": [\x7b\"name\": \"a\"\x7d, \x7b\"name\": \"b\"\x7d]\x7d")
      parseTwoNames = ["a", "b"] :=
  models_names_printed_in_order parseTwoNames _
    [("models", Json.arr [Json.obj [("name", Json.str "a")], Json.obj [("name", Json.str "b")]])]
    [Json.obj [("name", Json.str "a")], Json.obj [("name", Json.str "b")]]
    ["a", "b"] rfl rfl
    (List.Forall₂.cons rfl (List.Forall₂.cons rfl List.Forall₂.nil))

/-- Claim C2: a response parsing to an object with no models field, or
with an empty models list, produces no output lines and no error. -/
theorem missing_or_empty_models_prints_nothing (parse : String → ParseResult)
    (body : String) (fields : List (String × Json))
    (hp : parse body = ParseResult.ok (Json.obj fields))
    (hm : dictGet fields "models" = none ∨
      dictGet fields "models" = some (Json.arr [])) :
    check_models (NetResult.success body) parse = [] := by
  rcases hm with hm | hm <;>
    simp [check_models, tryBody, hp, dataGet, hm, pyIter, printModels]

theorem missing_or_empty_models_prints_nothing_witness :
    check_models (NetResult.success "\x7b\x7d") parseEmptyObj = [] :=
  missing_or_empty_models_prints_nothing parseEmptyObj _ [] rfl (Or.inl rfl)

/-- Claim C3: when the models list holds a prefix of records with string
names followed by a record lacking a name field, the program prints the
prefix's names in order, then exactly one error line (the key error's
description), and nothing for any later record. -/
theorem missing_name_stops_iteration (parse : String → ParseResult)
    (body : String) (fields : List (String × Json)) (pre : List Json)
    (bad : Json) (post : List Json) (names : List String)
    (hp : parse body = ParseResult.ok (Json.obj fields))
    (hm : dictGet fields "models" = some (Json.arr (pre ++ bad :: post)))
    (hpre : List.Forall₂
      (fun m n => subscript m "name" = Except.ok (Json.str n)) pre names)
    (hbad : ∃ bf, bad = Json.obj bf ∧ dictGet bf "name" = none) :
    check_models (NetResult.success body) parse =
      names ++ [keyErrorMsg "name"] := by
  obtain ⟨bf, rfl, hbf⟩ := hbad
  have hsub : subscript (Json.obj bf) "name" =
      Except.error (keyErrorMsg "name") := by
    simp [subscript, hbf]
  have hpm := printModels_append_err post hpre hsub
  simp [check_models, tryBody, hp, dataGet, hm, pyIter, hpm]

theorem missing_name_stops_iteration_witness :
    check_models (NetResult.success "\x7b\"models\": [\x7b\"name\": \"a\"\x7d, \x7b\"notname\": \"b\"\x7d]\x7d")
      parseMissingName = ["a", keyErrorMsg "name"] :=
  missing_name_stops_iteration parseMissingName _
    [("models", Json.arr [Json.obj [("name", Json.str "a")], Json.obj [("notname", Json.str "b")]])]
    [Json.obj [("name", Json.str "a")]] (Json.obj [("notname", Json.str "b")])
    [] ["a"] rfl rfl (List.Forall₂.cons rfl List.Forall₂.nil)
    ⟨[("notname", Json.str "b")], rfl, rfl⟩

/-- Claim C4: a response body that does not parse as JSON yields exactly
one line, the parse error's description, and no model names. -/
theorem invalid_json_prints_parse_error (parse : String → ParseResult)
    (body e : String) (hp : parse body = ParseResult.err e) :
    check_models (NetResult.success body) parse = [e] := by
  simp [check_models, tryBody, hp]

theorem invalid_json_prints_parse_error_witness :
    check_models (NetResult.success "not json") parseInvalidText =
      ["Expecting value: line 1 column 1 (char 0)"] :=
  invalid_json_prints_parse_error parseInvalidText "not json" _ rfl

/-- Claim C5: a failed fetch (connection failure, DNS failure, non-2xx
response) yields exactly one line, the failure's description, and no model
names, whatever the server would have answered. -/
theorem network_failure_prints_one_error (parse : String → ParseResult)
    (e : String) :
    check_models (NetResult.failure e) parse = [e] := rfl

/-- Claim C6: the request URL equals the fixed base endpoint concatenated
with the empty key of this build, hence equals the base string itself. -/
theorem url_is_base_with_empty_key :
    url = "https://generativelanguage.googleapis.com/v1beta/models?key=" ++ "" ∧
    url = "https://generativelanguage.googleapis.com/v1beta/models?key=" :=
  ⟨by decide, rfl⟩

/-- Claim C7: whatever exception escapes the try body — network, decode,
parse, or lookup failure — the outermost handler converts it into a final
printed line; the program still returns its output normally. -/
theorem all_failures_printed (net : NetResult) (parse : String → ParseResult)
    (e : String) (h : (tryBody net parse).2 = some e) :
    ∃ pre, check_models net parse = pre ++ [e] := by
  refine ⟨(tryBody net parse).1, ?_⟩
  have hv : tryBody net parse = ((tryBody net parse).1, some e) := by
    rw [← h]
  unfold check_models
  rw [hv]

theorem all_failures_printed_witness :
    ∃ pre, check_models (NetResult.failure "boom") parseUnused =
      pre ++ ["boom"] :=
  all_failures_printed (NetResult.failure "boom") parseUnused "boom" rfl

/-- Claim C8 (amended): no exception escapes the handler, and every
unexpected shape except an empty-iterable models value yields exactly one
error line — a top-level non-object, a non-iterable models value, a
non-empty string or non-empty object as models value (each before any
name), and a models list whose well-formed record prefix is followed by an
element failing the name lookup (after that prefix's names); only an
empty object or empty string as models value yields zero lines. -/
theorem handler_catches_all_amended (parse : String → ParseResult)
    (body : String) :
    (∀ v, parse body = ParseResult.ok v → isObj v = false →
      check_models (NetResult.success body) parse = [attributeErrorMsg v]) ∧
    (∀ fields v, parse body = ParseResult.ok (Json.obj fields) →
      dictGet fields "models" = some v → isIterable v = false →
      check_models (NetResult.success body) parse = [notIterableMsg v]) ∧
    (∀ fields (c : Char) (cs : List Char),
      parse body = ParseResult.ok (Json.obj fields) →
      dictGet fields "models" = some (Json.str ⟨c :: cs⟩) →
      check_models (NetResult.success body) parse = [strIndexMsg]) ∧
    (∀ fields kv fs, parse body = ParseResult.ok (Json.obj fields) →
      dictGet fields "models" = some (Json.obj (kv :: fs)) →
      check_models (NetResult.success body) parse = [strIndexMsg]) ∧
    (∀ fields pre bad post names e,
      parse body = ParseResult.ok (Json.obj fields) →
      dictGet fields "models" = some (Json.arr (pre ++ bad :: post)) →
      List.Forall₂
        (fun m n => subscript m "name" = Except.ok (Json.str n)) pre names →
      subscript bad "name" = Except.error e →
      check_models (NetResult.success body) parse = names ++ [e]) := by
  refine ⟨?_, ?_, ?_, ?_, ?_⟩
  · intro v hp hv
    cases v <;> simp_all [check_models, tryBody, dataGet, isObj]
  · intro fields v hp hm hv
    cases v <;> simp_all [check_models, tryBody, dataGet, pyIter, isIterable]
  · intro fields c cs hp hm
    simp [check_models, tryBody, hp, dataGet, hm, pyIter, String.toList,
      printModels, subscript]
  · intro fields kv fs hp hm
    simp [check_models, tryBody, hp, dataGet, hm, pyIter, printModels,
      subscript]
  · intro fields pre bad post names e hp hm hpre hbad
    have hpm := printModels_append_err post hpre hbad
    simp [check_models, tryBody, hp, dataGet, hm, pyIter, hpm]

theorem handler_catches_all_amended_witness :
    check_models (NetResult.success "\x7b\"models\": [5]\x7d")
      parseModelsNumList = [notSubscriptableMsg (Json.num 5)] :=
  (handler_catches_all_amended parseModelsNumList _).2.2.2.2
    [("models", Json.arr [Json.num 5])] [] (Json.num 5) [] []
    (notSubscriptableMsg (Json.num 5)) rfl rfl List.Forall₂.nil rfl

/-- Claim C8 as stated fails: a models value that is an empty object is
outside the expected shape, yet the run prints zero lines, not one
error-description line. -/
theorem unexpected_shape_not_always_error :
    check_models (NetResult.success "\x7b\"models\": \x7b\x7d\x7d")
      parseModelsEmptyDict = [] := rfl

/-- Claim C9: no type validation is applied to name values — every record
whose name field holds any value has that value's textual rendering
printed as its line, with no failure. -/
theorem name_values_rendered (parse : String → ParseResult) (body : String)
    (fields : List (String × Json)) (ms vs : List Json)
    (hp : parse body = ParseResult.ok (Json.obj fields))
    (hm : dictGet fields "models" = some (Json.arr ms))
    (hv : List.Forall₂ (fun m v => subscript m "name" = Except.ok v) ms vs) :
    check_models (NetResult.success body) parse = vs.map pyStr := by
  have hpm := printModels_of_forall hv
  simp [check_models, tryBody, hp, dataGet, hm, pyIter, hpm]

theorem name_values_rendered_witness :
    check_models (NetResult.success "\x7b\"models\": [\x7b\"name\": 7\x7d, \x7b\"name\": null\x7d]\x7d")
      parseNonStrNames = ["7", "None"] :=
  (name_values_rendered parseNonStrNames _
    [("models", Json.arr [Json.obj [("name", Json.num 7)], Json.obj [("name", Json.null)]])]
    [Json.obj [("name", Json.num 7)], Json.obj [("name", Json.null)]]
    [Json.num 7, Json.null] rfl rfl
    (List.Forall₂.cons rfl (List.Forall₂.cons rfl List.Forall₂.nil))).trans rfl

/-- Claim C10: the program is deterministic in its input — two runs whose
fetches yield the same outcome, parsed by the same (extensionally equal)
parse function, print identical output. -/
theorem deterministic_output (net1 net2 : NetResult)
    (parse1 parse2 : String → ParseResult) (hnet : net1 = net2)
    (hparse : ∀ s, parse1 s = parse2 s) :
    check_models net1 parse1 = check_models net2 parse2 := by
  have hfun : parse1 = parse2 := funext hparse
  rw [hnet, hfun]

theorem deterministic_output_witness :
    check_models (NetResult.failure "err") parseUnused =
      check_models (NetResult.failure "err") parseUnusedToo :=
  deterministic_output _ _ parseUnused parseUnusedToo rfl (fun _ => rfl)
